import Mathlib

/-!
Verification development for the ftinspect font-rendering engine
(src/engine/engine.hpp).  The header declares the engine's data model and
API; the member-function bodies live in a separate translation unit that is
not part of the available sources, so the operational definitions below are
modelled from the specification (spec.md) and from the declarations,
comments and inline definitions of engine.hpp.  The inline setters of
engine.hpp (lines 185-204) are translated directly from their source text.
-/

/-- Translated from src/engine/engine.hpp lines 37-48: the (font, face,
instance) index triplet that identifies a renderable face variant.
fontIndex and namedInstanceIndex are C ints, faceIndex a C long; all are
modelled as unbounded integers since the registry logic never overflows
them. -/
structure FaceID where
  fontIndex : Int
  faceIndex : Int
  namedInstanceIndex : Int
deriving DecidableEq, Repr

/-- Modelled from the spec (section 4.1, FaceID Registry) and engine.hpp
lines 225-227: the registry state, a running counter plus the
triplet-to-opaque-ID map (QMap faceIDMap, modelled as an association
list). Missing from src: the engine.cpp bodies that manipulate them. -/
structure Registry where
  faceCounter : Nat
  faceIDMap : List (FaceID × Nat)
deriving DecidableEq, Repr

/-- Association-list lookup keyed by FaceID equality, modelling the QMap
find operation used by the registry. -/
def lookupID (m : List (FaceID × Nat)) (t : FaceID) : Option Nat :=
  match m with
  | [] => none
  | (k, v) :: rest => if k = t then some v else lookupID rest t

/-- Reverse lookup, modelling the Face Requester's opaque-ID-to-triplet
resolution (spec section 4.2). -/
def reverseLookup (m : List (FaceID × Nat)) (id : Nat) : Option FaceID :=
  match m with
  | [] => none
  | (k, v) :: rest => if v = id then some k else reverseLookup rest id

/-- Modelled from the spec: `getOrCreate(triplet)` of section 4.1 (the
engine.cpp body behind faceIDMap_ / faceCounter_ is missing from src).
A known triplet returns its stored ID unchanged; a new triplet is assigned
the next counter value and appended. -/
def getOrCreate (r : Registry) (t : FaceID) : Nat × Registry :=
  match lookupID r.faceIDMap t with
  | some id => (id, r)
  | none =>
    (r.faceCounter,
     { faceCounter := r.faceCounter + 1,
       faceIDMap := (t, r.faceCounter) :: r.faceIDMap })

/-- Registry well-formedness: every stored ID is below the counter, the map
is functional on triplets, and distinct triplets hold distinct IDs. All
reachable registries satisfy it (the initial registry is empty). -/
def RegistryWF (r : Registry) : Prop :=
  (∀ p ∈ r.faceIDMap, p.2 < r.faceCounter) ∧
  (∀ p ∈ r.faceIDMap, ∀ q ∈ r.faceIDMap, p.1 = q.1 → p.2 = q.2) ∧
  (∀ p ∈ r.faceIDMap, ∀ q ∈ r.faceIDMap, p.2 = q.2 → p.1 = q.1)

instance (r : Registry) : Decidable (RegistryWF r) := by
  unfold RegistryWF
  infer_instance

theorem lookupID_some_mem {m : List (FaceID × Nat)} {t : FaceID} {v : Nat}
    (h : lookupID m t = some v) : (t, v) ∈ m := by
  induction m with
  | nil => simp [lookupID] at h
  | cons p rest ih =>
    rcases p with ⟨k, w⟩
    by_cases hk : k = t
    · subst hk
      simp [lookupID] at h
      subst h
      exact List.mem_cons_self _ _
    · simp [lookupID, hk] at h
      exact List.mem_cons_of_mem _ (ih h)

theorem lookupID_none_not_key {m : List (FaceID × Nat)} {t : FaceID}
    (h : lookupID m t = none) : ∀ p ∈ m, p.1 ≠ t := by
  induction m with
  | nil => intro p hp; simp at hp
  | cons q rest ih =>
    rcases q with ⟨k, w⟩
    by_cases hk : k = t
    · subst hk; simp [lookupID] at h
    · simp [lookupID, hk] at h
      intro p hp
      rcases List.mem_cons.1 hp with h1 | h2
      · subst h1; exact hk
      · exact ih h p h2

theorem getOrCreate_WF {r : Registry} (t : FaceID) (hwf : RegistryWF r) :
    RegistryWF (getOrCreate r t).2 := by
  obtain ⟨hbound, hfun, hinj⟩ := hwf
  unfold getOrCreate
  cases hl : lookupID r.faceIDMap t with
  | some v => exact ⟨hbound, hfun, hinj⟩
  | none =>
    refine ⟨?_, ?_, ?_⟩
    · intro p hp
      rcases List.mem_cons.1 hp with h1 | h2
      · subst h1; exact Nat.lt_succ_self _
      · exact Nat.lt_succ_of_lt (hbound p h2)
    · intro p hp q hq hpq
      rcases List.mem_cons.1 hp with h1 | h1 <;>
        rcases List.mem_cons.1 hq with h2 | h2
      · subst h1; subst h2; rfl
      · subst h1
        exact absurd hpq.symm (lookupID_none_not_key hl q h2)
      · subst h2
        exact absurd hpq (lookupID_none_not_key hl p h1)
      · exact hfun p h1 q h2 hpq
    · intro p hp q hq hpq
      rcases List.mem_cons.1 hp with h1 | h1 <;>
        rcases List.mem_cons.1 hq with h2 | h2
      · subst h1; subst h2; rfl
      · subst h1
        exact absurd hpq.symm (Nat.ne_of_lt (hbound q h2))
      · subst h2
        exact absurd hpq (Nat.ne_of_lt (hbound p h1))
      · exact hinj p h1 q h2 hpq

/-- C1: the FaceID registry mapping is deterministic and injective.
Calling getOrCreate twice on the same triplet returns the same opaque ID
(with the registry unchanged by the second call), and for distinct
triplets the two sequentially returned IDs differ. -/
theorem getOrCreate_deterministic_injective (r : Registry) (t1 t2 : FaceID)
    (hwf : RegistryWF r) :
    getOrCreate (getOrCreate r t1).2 t1 = getOrCreate r t1 ∧
    (t1 ≠ t2 →
      (getOrCreate (getOrCreate r t1).2 t2).1 ≠ (getOrCreate r t1).1) := by
  obtain ⟨hbound, hfun, hinj⟩ := hwf
  cases hl : lookupID r.faceIDMap t1 with
  | some v1 =>
    constructor
    · simp [getOrCreate, hl]
    · intro hne
      simp only [getOrCreate, hl]
      cases hl2 : lookupID r.faceIDMap t2 with
      | some v2 =>
        intro hv
        exact hne (hinj (t1, v1) (lookupID_some_mem hl)
          (t2, v2) (lookupID_some_mem hl2) hv.symm)
      | none =>
        exact fun hv =>
          absurd hv.symm (Nat.ne_of_lt (hbound _ (lookupID_some_mem hl)))
  | none =>
    constructor
    · simp [getOrCreate, hl, lookupID]
    · intro hne
      simp only [getOrCreate, hl]
      have hhead : lookupID ((t1, r.faceCounter) :: r.faceIDMap) t2
          = lookupID r.faceIDMap t2 := by
        simp [lookupID, hne]
      cases hl2 : lookupID r.faceIDMap t2 with
      | some v2 =>
        simp only [hhead, hl2]
        exact Nat.ne_of_lt (hbound _ (lookupID_some_mem hl2))
      | none =>
        simp only [hhead, hl2]
        exact Nat.succ_ne_self _

theorem getOrCreate_deterministic_injective_witness :
    getOrCreate (getOrCreate ⟨0, []⟩ ⟨0, 0, 0⟩).2 ⟨0, 0, 0⟩
        = getOrCreate ⟨0, []⟩ ⟨0, 0, 0⟩ ∧
    (getOrCreate (getOrCreate ⟨0, []⟩ ⟨0, 0, 0⟩).2 ⟨1, 0, 0⟩).1
        ≠ (getOrCreate ⟨0, []⟩ ⟨0, 0, 0⟩).1 := by
  have h := getOrCreate_deterministic_injective ⟨0, []⟩ ⟨0, 0, 0⟩ ⟨1, 0, 0⟩
    (by decide)
  exact ⟨h.1, h.2 (by decide)⟩

/-- Modelled from the spec (sections 3 and 4.3): the externally observable
content of one face variant, as resolved by the Face Requester through the
font-file collaborator (the FreeType face object and engine.cpp are missing
from src).  hasUsableSize records whether a scalable size can be activated
(spec: fonts with no valid scalable size still resolve a fallback face). -/
structure FaceRecord where
  familyName : String
  styleName : String
  numGlyphs : Nat
  fontType : Int
  charMaps : List Nat
  paletteInfos : List Nat
  sfntNames : List String
  hasUsableSize : Bool
deriving DecidableEq, Repr

/-- A rendered glyph image (list of pixel values); the spec only needs
bitmap equality, not pixel semantics. -/
def GlyphImage : Type := List Nat

instance : DecidableEq GlyphImage := by
  unfold GlyphImage
  infer_instance

/-- Modelled from the spec (section 3, Scaler): the requested rendering
size, mirroring FTC_ScalerRec at engine.hpp line 255. -/
structure Scaler where
  faceID : Nat
  width : ℚ
  height : ℚ
  resolution : Nat
deriving DecidableEq, Repr

/-- Modelled from the spec (section 3, ImageTypeKey): the glyph-image cache
key, mirroring FTC_ImageTypeRec at engine.hpp line 256. -/
structure ImageTypeKey where
  scaler : Scaler
  loadFlags : Nat
  renderMode : Int
deriving DecidableEq, Repr

/-- Modelled from the spec (sections 2 and 4.2): the deterministic external
world — which triplets resolve to faces, and what pixel image the
rendering library produces for a face, image-type key and glyph index.
Determinism of the Face Requester is a spec requirement ("must be
deterministic"), captured here by using functions. -/
structure FontDatabase where
  face : FaceID → Option FaceRecord
  glyphImage : FaceID → ImageTypeKey → Nat → GlyphImage

/-- FontType_Other, the last enumerator of engine.hpp lines 301-306 and
the default of fontType_ (line 233). -/
def FontType_Other : Int := 2

/-- The engine state: a field-for-field model of the private data members
of class Engine (engine.hpp lines 224-284).  Native handles (FT_Library,
FTC_Manager and the individual caches) are represented by the data they
hold: the registry, the current fallback face / size context, and the
glyph-image cache.  Default values follow the member initializers of
engine.hpp lines 232-284. -/
structure EngineState where
  registry : Registry
  fontFiles : Nat
  curFontIndex : Int
  fontType : Int
  curFamilyName : String
  curStyleName : String
  curNumGlyphs : Int
  curCharMaps : List Nat
  curPaletteInfos : List Nat
  curSFNTNames : List String
  curFaceID : Option FaceID
  ftFallbackFace : Option FaceRecord
  ftSize : Option Unit
  scaler : Scaler
  imageTypeKey : ImageTypeKey
  glyphCache : List ((ImageTypeKey × Nat) × GlyphImage)
  antiAliasingEnabled : Bool
  usingPixelSize : Bool
  pointSize : ℚ
  pixelSize : ℚ
  dpi : Nat
  doHinting : Bool
  doAutoHinting : Bool
  doHorizontalHinting : Bool
  doVerticalHinting : Bool
  doBlueZoneHinting : Bool
  showSegments : Bool
  embeddedBitmap : Bool
  useColorLayer : Bool
  paletteIndex : Int
  antiAliasingTarget : Int
  lcdSubPixelPositioning : Bool
  renderMode : Int
  loadFlags : Nat
deriving DecidableEq

/-- The freshly constructed engine, with the default member values of
engine.hpp lines 226-284 (empty registry, no current font, pointSize 20,
pixelSize 20, dpi 98, antiAliasingEnabled true, everything else off). -/
def initState : EngineState :=
  { registry := ⟨0, []⟩
    fontFiles := 0
    curFontIndex := -1
    fontType := FontType_Other
    curFamilyName := ""
    curStyleName := ""
    curNumGlyphs := -1
    curCharMaps := []
    curPaletteInfos := []
    curSFNTNames := []
    curFaceID := none
    ftFallbackFace := none
    ftSize := none
    scaler := ⟨0, 0, 0, 0⟩
    imageTypeKey := ⟨⟨0, 0, 0, 0⟩, 0, 0⟩
    glyphCache := []
    antiAliasingEnabled := true
    usingPixelSize := false
    pointSize := 20
    pixelSize := 20
    dpi := 98
    doHinting := false
    doAutoHinting := false
    doHorizontalHinting := false
    doVerticalHinting := false
    doBlueZoneHinting := false
    showSegments := false
    embeddedBitmap := false
    useColorLayer := false
    paletteIndex := -1
    antiAliasingTarget := 0
    lcdSubPixelPositioning := false
    renderMode := 0
    loadFlags := 0 }

/-- Modelled from the spec (section 4.3): clearing the Current-State view
on a failed load, restoring every current-font field to its default. -/
def clearCurrentState (s : EngineState) : EngineState :=
  { s with
    curFontIndex := -1
    fontType := FontType_Other
    curFamilyName := ""
    curStyleName := ""
    curNumGlyphs := -1
    curCharMaps := []
    curPaletteInfos := []
    curSFNTNames := []
    curFaceID := none
    ftFallbackFace := none
    ftSize := none }

/-- Modelled from the spec (section 4.5): the load-flag word derived from
the hinting / anti-aliasing / bitmap / color settings, part of the
image-type cache key so that changed settings change the key. -/
def computeLoadFlags (s : EngineState) : Nat :=
  (if s.doHinting then 0 else 1)
  + 2 * (if s.doAutoHinting then 1 else 0)
  + 4 * (if s.embeddedBitmap then 0 else 1)
  + 8 * (if s.useColorLayer then 1 else 0)
  + 16 * (if s.antiAliasingEnabled then 0 else 1)
  + 32 * (if s.lcdSubPixelPositioning then 1 else 0)

/-- Modelled from the spec (section 3, Scaler): the active scaler derived
from the current pixel size and DPI for a given opaque face ID. -/
def computeScaler (s : EngineState) (id : Nat) : Scaler :=
  ⟨id, s.pixelSize, s.pixelSize, s.dpi⟩

/-- Modelled from the spec (section 3, ImageTypeKey): the glyph-image
cache key derived from the scaler, load flags and render mode. -/
def computeImageType (s : EngineState) (id : Nat) : ImageTypeKey :=
  ⟨computeScaler s id, computeLoadFlags s, s.renderMode⟩

/-- Modelled from the spec: loadFont of section 4.3 (declared at
engine.hpp lines 80-82; the engine.cpp body is missing from src).
Resolves the opaque ID, requests face residency from the database; on
failure clears Current-State and returns the sentinel -1; on success
populates every Current-State field atomically and returns the glyph
count.  A face without a usable scalable size keeps ftSize empty
(fallback-face-only, not render-ready). -/
def loadFont (db : FontDatabase) (s : EngineState)
    (fontIndex : Int) (faceIndex : Int) (namedInstanceIndex : Int) :
    Int × EngineState :=
  let t : FaceID := ⟨fontIndex, faceIndex, namedInstanceIndex⟩
  let idreg := getOrCreate s.registry t
  let s1 := { s with registry := idreg.2 }
  match db.face t with
  | none => (-1, clearCurrentState s1)
  | some rec =>
    ((rec.numGlyphs : Int),
     { s1 with
       curFontIndex := fontIndex
       fontType := rec.fontType
       curFamilyName := rec.familyName
       curStyleName := rec.styleName
       curNumGlyphs := (rec.numGlyphs : Int)
       curCharMaps := rec.charMaps
       curPaletteInfos := rec.paletteInfos
       curSFNTNames := rec.sfntNames
       curFaceID := some t
       ftFallbackFace := some rec
       ftSize := if rec.hasUsableSize then some () else none
       scaler := computeScaler s1 idreg.1
       imageTypeKey := computeImageType s1 idreg.1 })

/-- Modelled from the spec (section 4.5): reloadFont re-derives the
fallback face and Current-State for the same triplet (declared at
engine.hpp line 94; body missing from src). -/
def reloadFont (db : FontDatabase) (s : EngineState) : EngineState :=
  match s.curFaceID with
  | some t => (loadFont db s t.fontIndex t.faceIndex t.namedInstanceIndex).2
  | none => s

/-- Modelled from the spec (sections 4.1 and 8): removeFont closes the
font file; removing the currently active font leaves the engine Unloaded.
It never touches the registry (no removal operation exists there).
Declared at engine.hpp lines 98-99; body missing from src. -/
def removeFont (s : EngineState) (fontIndex : Int) : EngineState :=
  let s1 := { s with fontFiles := s.fontFiles - 1 }
  if fontIndex = s.curFontIndex then clearCurrentState s1 else s1

/-- Modelled from the spec (section 6): opening a batch of font files only
grows the font-file collaborator state.  Declared at engine.hpp line 97;
body missing from src. -/
def openFonts (s : EngineState) (count : Nat) : EngineState :=
  { s with fontFiles := s.fontFiles + count }

/-- Modelled from the spec (section 4.2): resetCache drops all resident
cache objects immediately.  Declared at engine.hpp line 102; body missing
from src. -/
def resetCache (s : EngineState) : EngineState :=
  { s with glyphCache := [] }

/-- Modelled from the spec (section 4.5): update recomputes the active
scaler and image-type key from the current settings and re-resolves
face and size residency.  Declared at engine.hpp line 101; body missing
from src. -/
def update (s : EngineState) : EngineState :=
  match s.curFaceID, s.ftFallbackFace with
  | some t, some rec =>
    let idreg := getOrCreate s.registry t
    { s with
      registry := idreg.2
      loadFlags := computeLoadFlags s
      scaler := computeScaler s idreg.1
      imageTypeKey := computeImageType s idreg.1
      ftSize := if rec.hasUsableSize then some () else none }
  | _, _ =>
    { s with loadFlags := computeLoadFlags s, ftSize := none }

/-- Association-list lookup in the glyph-image cache, keyed by
(image-type key, glyph index). -/
def cacheLookup (c : List ((ImageTypeKey × Nat) × GlyphImage))
    (k : ImageTypeKey × Nat) : Option GlyphImage :=
  match c with
  | [] => none
  | (k1, img) :: rest => if k1 = k then some img else cacheLookup rest k

/-- Modelled from the spec: loadGlyph of section 4.4 (declared at
engine.hpp line 83; body missing from src).  A missing size context or an
out-of-range glyph index yields a null result; otherwise the glyph comes
from the cache when resident and is otherwise materialized through the
Face Requester chain and inserted. -/
def loadGlyph (db : FontDatabase) (s : EngineState) (glyphIndex : Int) :
    Option GlyphImage × EngineState :=
  match s.ftSize with
  | none => (none, s)
  | some _ =>
    match s.curFaceID with
    | none => (none, s)
    | some t =>
      if glyphIndex < 0 ∨ s.curNumGlyphs ≤ glyphIndex then (none, s)
      else
        let key := (s.imageTypeKey, glyphIndex.toNat)
        match cacheLookup s.glyphCache key with
        | some img => (some img, s)
        | none =>
          let img := db.glyphImage t s.imageTypeKey glyphIndex.toNat
          (some img, { s with glyphCache := (key, img) :: s.glyphCache })

/-- Translated from engine.hpp line 185: void setDPI(int d) assigns the int
argument to the unsigned int member dpi_, wrapping modulo 2^32. -/
def setDPI (s : EngineState) (d : Int) : EngineState :=
  { s with dpi := (d % 4294967296).toNat }

/-- Modelled from the spec (section 4.5): setSizeByPixel stores the pixel
size, recomputes the point size from it and the DPI, and selects pixel
mode.  Declared at engine.hpp line 186; body missing from src. -/
def setSizeByPixel (s : EngineState) (px : ℚ) : EngineState :=
  { s with
    usingPixelSize := true
    pixelSize := px
    pointSize := px * 72 / (s.dpi : ℚ) }

/-- Modelled from the spec (section 4.5): setSizeByPoint stores the point
size, recomputes the pixel size from it and the DPI, and selects point
mode.  Declared at engine.hpp line 187; body missing from src. -/
def setSizeByPoint (s : EngineState) (pt : ℚ) : EngineState :=
  { s with
    usingPixelSize := false
    pointSize := pt
    pixelSize := pt * (s.dpi : ℚ) / 72 }

/-- Translated from engine.hpp line 188. -/
def setHinting (s : EngineState) (hinting : Bool) : EngineState :=
  { s with doHinting := hinting }

/-- Translated from engine.hpp line 189. -/
def setAutoHinting (s : EngineState) (autoHinting : Bool) : EngineState :=
  { s with doAutoHinting := autoHinting }

/-- Translated from engine.hpp lines 190-191. -/
def setHorizontalHinting (s : EngineState) (horHinting : Bool) :
    EngineState :=
  { s with doHorizontalHinting := horHinting }

/-- Translated from engine.hpp lines 192-193. -/
def setVerticalHinting (s : EngineState) (verticalHinting : Bool) :
    EngineState :=
  { s with doVerticalHinting := verticalHinting }

/-- Translated from engine.hpp lines 194-195. -/
def setBlueZoneHinting (s : EngineState) (blueZoneHinting : Bool) :
    EngineState :=
  { s with doBlueZoneHinting := blueZoneHinting }

/-- Translated from engine.hpp line 196. -/
def setShowSegments (s : EngineState) (showSegments : Bool) : EngineState :=
  { s with showSegments := showSegments }

/-- Translated from engine.hpp line 197. -/
def setAntiAliasingTarget (s : EngineState) (target : Int) : EngineState :=
  { s with antiAliasingTarget := target }

/-- Translated from engine.hpp line 198. -/
def setRenderMode (s : EngineState) (mode : Int) : EngineState :=
  { s with renderMode := mode }

/-- Translated from engine.hpp lines 199-200. -/
def setAntiAliasingEnabled (s : EngineState) (enabled : Bool) :
    EngineState :=
  { s with antiAliasingEnabled := enabled }

/-- Translated from engine.hpp line 201. -/
def setEmbeddedBitmapEnabled (s : EngineState) (enabled : Bool) :
    EngineState :=
  { s with embeddedBitmap := enabled }

/-- Translated from engine.hpp line 202. -/
def setUseColorLayer (s : EngineState) (colorLayer : Bool) : EngineState :=
  { s with useColorLayer := colorLayer }

/-- Translated from engine.hpp line 203. -/
def setPaletteIndex (s : EngineState) (index : Int) : EngineState :=
  { s with paletteIndex := index }

/-- Translated from engine.hpp line 204. -/
def setLCDSubPixelPositioning (s : EngineState) (sp : Bool) : EngineState :=
  { s with lcdSubPixelPositioning := sp }

/-- The modelled state-changing API surface of the engine (spec section 6):
one constructor per public operation that can alter engine state.  The
backing-field-less setters of engine.hpp lines 209-215 mutate
rendering-library global or face-local state only, so on this state model
they are identities (spec section 4.5). -/
inductive Op where
  | loadFont (fontIndex : Int) (faceIndex : Int) (namedInstanceIndex : Int)
  | reloadFont
  | removeFont (fontIndex : Int)
  | openFonts (count : Nat)
  | resetCache
  | update
  | loadGlyph (glyphIndex : Int)
  | setDPI (d : Int)
  | setSizeByPixel (px : ℚ)
  | setSizeByPoint (pt : ℚ)
  | setHinting (b : Bool)
  | setAutoHinting (b : Bool)
  | setHorizontalHinting (b : Bool)
  | setVerticalHinting (b : Bool)
  | setBlueZoneHinting (b : Bool)
  | setShowSegments (b : Bool)
  | setAntiAliasingTarget (i : Int)
  | setRenderMode (i : Int)
  | setAntiAliasingEnabled (b : Bool)
  | setEmbeddedBitmapEnabled (b : Bool)
  | setUseColorLayer (b : Bool)
  | setPaletteIndex (i : Int)
  | setLCDSubPixelPositioning (b : Bool)
  | setLcdFilter (f : Int)
  | setCFFHintingMode (m : Int)
  | setTTInterpreterVersion (v : Int)
  | setStemDarkening (b : Bool)
  | applyMMGXDesignCoords (coords : List Int)

/-- One step of the engine: dispatch an operation against the external
font database. -/
def step (db : FontDatabase) (op : Op) (s : EngineState) : EngineState :=
  match op with
  | Op.loadFont fi fa ni => (loadFont db s fi fa ni).2
  | Op.reloadFont => reloadFont db s
  | Op.removeFont fi => removeFont s fi
  | Op.openFonts n => openFonts s n
  | Op.resetCache => resetCache s
  | Op.update => update s
  | Op.loadGlyph gi => (loadGlyph db s gi).2
  | Op.setDPI d => setDPI s d
  | Op.setSizeByPixel px => setSizeByPixel s px
  | Op.setSizeByPoint pt => setSizeByPoint s pt
  | Op.setHinting b => setHinting s b
  | Op.setAutoHinting b => setAutoHinting s b
  | Op.setHorizontalHinting b => setHorizontalHinting s b
  | Op.setVerticalHinting b => setVerticalHinting s b
  | Op.setBlueZoneHinting b => setBlueZoneHinting s b
  | Op.setShowSegments b => setShowSegments s b
  | Op.setAntiAliasingTarget i => setAntiAliasingTarget s i
  | Op.setRenderMode i => setRenderMode s i
  | Op.setAntiAliasingEnabled b => setAntiAliasingEnabled s b
  | Op.setEmbeddedBitmapEnabled b => setEmbeddedBitmapEnabled s b
  | Op.setUseColorLayer b => setUseColorLayer s b
  | Op.setPaletteIndex i => setPaletteIndex s i
  | Op.setLCDSubPixelPositioning b => setLCDSubPixelPositioning s b
  | Op.setLcdFilter _ => s
  | Op.setCFFHintingMode _ => s
  | Op.setTTInterpreterVersion _ => s
  | Op.setStemDarkening _ => s
  | Op.applyMMGXDesignCoords _ => s

/-- The derived and cached parts of the engine state that a plain setter
must not touch: scaler, image-type key, glyph cache, registry, and every
Current-State field. -/
abbrev FrameUnchanged (s t : EngineState) : Prop :=
  t.scaler = s.scaler ∧
  t.imageTypeKey = s.imageTypeKey ∧
  t.glyphCache = s.glyphCache ∧
  t.registry = s.registry ∧
  t.loadFlags = s.loadFlags ∧
  t.curFontIndex = s.curFontIndex ∧
  t.fontType = s.fontType ∧
  t.curFamilyName = s.curFamilyName ∧
  t.curStyleName = s.curStyleName ∧
  t.curNumGlyphs = s.curNumGlyphs ∧
  t.curCharMaps = s.curCharMaps ∧
  t.curPaletteInfos = s.curPaletteInfos ∧
  t.curSFNTNames = s.curSFNTNames ∧
  t.curFaceID = s.curFaceID ∧
  t.ftFallbackFace = s.ftFallbackFace ∧
  t.ftSize = s.ftSize

/-- C9: the size mode is exclusive and the two size representations are
kept consistent: setSizeByPixel selects pixel mode and recomputes the
point size from the pixel size and the DPI; setSizeByPoint selects point
mode and recomputes the pixel size from the point size and the DPI. -/
theorem setSize_mode_exclusive_consistent (s : EngineState) (p q : ℚ) :
    ((setSizeByPixel s p).usingPixelSize = true ∧
     (setSizeByPixel s p).pixelSize = p ∧
     (setSizeByPixel s p).pointSize = p * 72 / (s.dpi : ℚ)) ∧
    ((setSizeByPoint s q).usingPixelSize = false ∧
     (setSizeByPoint s q).pointSize = q ∧
     (setSizeByPoint s q).pixelSize = q * (s.dpi : ℚ) / 72) :=
  ⟨⟨rfl, rfl, rfl⟩, ⟨rfl, rfl, rfl⟩⟩

/-- C10: every direct backing-field setter writes only its own backing
field; the scaler, image-type key, glyph-cache state, registry and all
Current-State fields are unchanged by the setter itself. -/
theorem direct_setters_only_write_backing_field (s : EngineState)
    (d i1 i2 i3 : Int) (b1 b2 b3 b4 b5 b6 b7 b8 b9 b10 : Bool) :
    (FrameUnchanged s (setDPI s d)) ∧
    (FrameUnchanged s (setHinting s b1) ∧
      (setHinting s b1).doHinting = b1) ∧
    (FrameUnchanged s (setAutoHinting s b2) ∧
      (setAutoHinting s b2).doAutoHinting = b2) ∧
    (FrameUnchanged s (setHorizontalHinting s b3) ∧
      (setHorizontalHinting s b3).doHorizontalHinting = b3) ∧
    (FrameUnchanged s (setVerticalHinting s b4) ∧
      (setVerticalHinting s b4).doVerticalHinting = b4) ∧
    (FrameUnchanged s (setBlueZoneHinting s b5) ∧
      (setBlueZoneHinting s b5).doBlueZoneHinting = b5) ∧
    (FrameUnchanged s (setShowSegments s b6) ∧
      (setShowSegments s b6).showSegments = b6) ∧
    (FrameUnchanged s (setAntiAliasingTarget s i1) ∧
      (setAntiAliasingTarget s i1).antiAliasingTarget = i1) ∧
    (FrameUnchanged s (setRenderMode s i2) ∧
      (setRenderMode s i2).renderMode = i2) ∧
    (FrameUnchanged s (setAntiAliasingEnabled s b7) ∧
      (setAntiAliasingEnabled s b7).antiAliasingEnabled = b7) ∧
    (FrameUnchanged s (setEmbeddedBitmapEnabled s b8) ∧
      (setEmbeddedBitmapEnabled s b8).embeddedBitmap = b8) ∧
    (FrameUnchanged s (setUseColorLayer s b9) ∧
      (setUseColorLayer s b9).useColorLayer = b9) ∧
    (FrameUnchanged s (setPaletteIndex s i3) ∧
      (setPaletteIndex s i3).paletteIndex = i3) ∧
    (FrameUnchanged s (setLCDSubPixelPositioning s b10) ∧
      (setLCDSubPixelPositioning s b10).lcdSubPixelPositioning = b10) := by
  refine ⟨?_, ⟨?_, rfl⟩, ⟨?_, rfl⟩, ⟨?_, rfl⟩, ⟨?_, rfl⟩, ⟨?_, rfl⟩,
    ⟨?_, rfl⟩, ⟨?_, rfl⟩, ⟨?_, rfl⟩, ⟨?_, rfl⟩, ⟨?_, rfl⟩, ⟨?_, rfl⟩,
    ⟨?_, rfl⟩, ⟨?_, rfl⟩⟩ <;>
  exact ⟨rfl, rfl, rfl, rfl, rfl, rfl, rfl, rfl, rfl, rfl, rfl, rfl, rfl,
    rfl, rfl, rfl⟩

/-- Modelled from the spec and the comment at engine.hpp lines 125-127:
the current font is valid when a (fallback) face object could be
retrieved; a valid font may still be unavailable for rendering. -/
def fontValid (s : EngineState) : Bool := s.ftFallbackFace.isSome

/-- Modelled from the spec and the comment at engine.hpp line 124: the
engine can render bitmaps exactly when a usable size context exists. -/
def renderReady (s : EngineState) : Bool := s.ftSize.isSome

/-- A font database with no resolvable faces, for witnesses. -/
def dbEmpty : FontDatabase :=
  { face := fun _ => none
    glyphImage := fun _ _ _ => [] }

/-- A sample scalable face with five glyphs, for witnesses. -/
def sampleFace : FaceRecord :=
  { familyName := "Sample Family"
    styleName := "Regular"
    numGlyphs := 5
    fontType := 0
    charMaps := [3, 1]
    paletteInfos := [0]
    sfntNames := ["Sample"]
    hasUsableSize := true }

/-- A font database holding sampleFace at triplet (0, 0, 0), whose glyph
images are determined by the triplet, the load flags of the image-type key
and the glyph index. -/
def dbOne : FontDatabase :=
  { face := fun t => if t = ⟨0, 0, 0⟩ then some sampleFace else none
    glyphImage := fun t k gi => [t.fontIndex.toNat, k.loadFlags, gi] }

theorem cacheLookup_some_mem
    {c : List ((ImageTypeKey × Nat) × GlyphImage)} {k : ImageTypeKey × Nat}
    {img : GlyphImage} (h : cacheLookup c k = some img) : (k, img) ∈ c := by
  induction c with
  | nil => simp [cacheLookup] at h
  | cons p rest ih =>
    rcases p with ⟨k1, img1⟩
    by_cases hk : k1 = k
    · subst hk
      simp [cacheLookup] at h
      subst h
      exact List.mem_cons_self _ _
    · simp [cacheLookup, hk] at h
      exact List.mem_cons_of_mem _ (ih h)

/-- loadGlyph touches nothing in the engine state except the glyph-image
cache. -/
theorem loadGlyph_snd_frame (db : FontDatabase) (s : EngineState)
    (gi : Int) :
    ((loadGlyph db s gi).2).registry = s.registry ∧
    ((loadGlyph db s gi).2).ftSize = s.ftSize ∧
    ((loadGlyph db s gi).2).ftFallbackFace = s.ftFallbackFace ∧
    ((loadGlyph db s gi).2).curFaceID = s.curFaceID ∧
    ((loadGlyph db s gi).2).curNumGlyphs = s.curNumGlyphs ∧
    ((loadGlyph db s gi).2).imageTypeKey = s.imageTypeKey := by
  cases hss : s.ftSize with
  | none => simp [loadGlyph, hss]
  | some u =>
    cases hf : s.curFaceID with
    | none => simp [loadGlyph, hss, hf]
    | some t =>
      by_cases hr : gi < 0 ∨ s.curNumGlyphs ≤ gi
      · simp [loadGlyph, hss, hf, hr]
      · cases hl : cacheLookup s.glyphCache (s.imageTypeKey, gi.toNat) with
        | none => simp [loadGlyph, hss, hf, hr, hl]
        | some img => simp [loadGlyph, hss, hf, hr, hl]

theorem getOrCreate_registry_extends (r : Registry) (t : FaceID) :
    (∃ pre, ((getOrCreate r t).2).faceIDMap = pre ++ r.faceIDMap) ∧
    r.faceCounter ≤ ((getOrCreate r t).2).faceCounter ∧
    ∀ p ∈ ((getOrCreate r t).2).faceIDMap,
      p ∈ r.faceIDMap ∨ r.faceCounter ≤ p.2 := by
  unfold getOrCreate
  cases hl : lookupID r.faceIDMap t with
  | some v =>
    exact ⟨⟨[], rfl⟩, le_refl _, fun p hp => Or.inl hp⟩
  | none =>
    refine ⟨⟨[(t, r.faceCounter)], rfl⟩, Nat.le_succ _, ?_⟩
    intro p hp
    rcases List.mem_cons.1 hp with h1 | h2
    · subst h1; exact Or.inr (le_refl _)
    · exact Or.inl h2

/-- loadFont always resolves the triplet through the registry and makes no
other registry change. -/
theorem loadFont_snd_registry (db : FontDatabase) (s : EngineState)
    (fi fa ni : Int) :
    ((loadFont db s fi fa ni).2).registry
      = (getOrCreate s.registry ⟨fi, fa, ni⟩).2 := by
  cases h : db.face ⟨fi, fa, ni⟩ <;>
    simp [loadFont, h, clearCurrentState]

/-- Every operation leaves the registry untouched or extends it by one
getOrCreate call. -/
theorem step_registry_cases (db : FontDatabase) (op : Op)
    (s : EngineState) :
    (step db op s).registry = s.registry ∨
    ∃ t, (step db op s).registry = (getOrCreate s.registry t).2 := by
  cases op with
  | loadFont fi fa ni =>
    exact Or.inr ⟨⟨fi, fa, ni⟩, loadFont_snd_registry db s fi fa ni⟩
  | reloadFont =>
    cases hc : s.curFaceID with
    | none =>
      refine Or.inl ?_
      show (reloadFont db s).registry = s.registry
      unfold reloadFont
      rw [hc]
    | some t =>
      refine Or.inr ⟨t, ?_⟩
      show (reloadFont db s).registry = _
      unfold reloadFont
      rw [hc]
      exact loadFont_snd_registry db s t.fontIndex t.faceIndex
        t.namedInstanceIndex
  | removeFont fi =>
    refine Or.inl ?_
    show (removeFont s fi).registry = s.registry
    unfold removeFont
    split <;> rfl
  | openFonts n => exact Or.inl rfl
  | resetCache => exact Or.inl rfl
  | update =>
    simp only [step]
    unfold update
    split
    · exact Or.inr ⟨_, rfl⟩
    · exact Or.inl rfl
  | loadGlyph gi => exact Or.inl (loadGlyph_snd_frame db s gi).1
  | setDPI d => exact Or.inl rfl
  | setSizeByPixel px => exact Or.inl rfl
  | setSizeByPoint pt => exact Or.inl rfl
  | setHinting b => exact Or.inl rfl
  | setAutoHinting b => exact Or.inl rfl
  | setHorizontalHinting b => exact Or.inl rfl
  | setVerticalHinting b => exact Or.inl rfl
  | setBlueZoneHinting b => exact Or.inl rfl
  | setShowSegments b => exact Or.inl rfl
  | setAntiAliasingTarget i => exact Or.inl rfl
  | setRenderMode i => exact Or.inl rfl
  | setAntiAliasingEnabled b => exact Or.inl rfl
  | setEmbeddedBitmapEnabled b => exact Or.inl rfl
  | setUseColorLayer b => exact Or.inl rfl
  | setPaletteIndex i => exact Or.inl rfl
  | setLCDSubPixelPositioning b => exact Or.inl rfl
  | setLcdFilter f => exact Or.inl rfl
  | setCFFHintingMode m => exact Or.inl rfl
  | setTTInterpreterVersion v => exact Or.inl rfl
  | setStemDarkening b => exact Or.inl rfl
  | applyMMGXDesignCoords coords => exact Or.inl rfl

/-- C2: the FaceID registry is append-only for the whole process lifetime.
No operation (removeFont included) removes a triplet-to-ID entry: the old
map is always a suffix of the new one, the counter never decreases, every
entry of the new map is an old entry or carries a fresh ID at or above the
old counter, and well-formedness (distinct IDs for distinct triplets,
so no recycling) is preserved. -/
theorem registry_append_only (db : FontDatabase) (op : Op)
    (s : EngineState) :
    (∃ pre, ((step db op s).registry).faceIDMap
        = pre ++ s.registry.faceIDMap) ∧
    s.registry.faceCounter ≤ ((step db op s).registry).faceCounter ∧
    (∀ p ∈ ((step db op s).registry).faceIDMap,
        p ∈ s.registry.faceIDMap ∨ s.registry.faceCounter ≤ p.2) ∧
    (RegistryWF s.registry → RegistryWF ((step db op s).registry)) := by
  rcases step_registry_cases db op s with h | ⟨t, h⟩
  · rw [h]
    exact ⟨⟨[], rfl⟩, le_refl _, fun p hp => Or.inl hp, fun w => w⟩
  · rw [h]
    obtain ⟨h1, h2, h3⟩ := getOrCreate_registry_extends s.registry t
    exact ⟨h1, h2, h3, getOrCreate_WF t⟩

theorem registry_append_only_witness :
    (∃ pre, ((step dbOne (Op.loadFont 0 0 0) initState).registry).faceIDMap
        = pre ++ initState.registry.faceIDMap) ∧
    initState.registry.faceCounter
        ≤ ((step dbOne (Op.loadFont 0 0 0) initState).registry).faceCounter ∧
    (∀ p ∈ ((step dbOne (Op.loadFont 0 0 0) initState).registry).faceIDMap,
        p ∈ initState.registry.faceIDMap
          ∨ initState.registry.faceCounter ≤ p.2) ∧
    RegistryWF ((step dbOne (Op.loadFont 0 0 0) initState).registry) := by
  have h := registry_append_only dbOne (Op.loadFont 0 0 0) initState
  exact ⟨h.1, h.2.1, h.2.2.1, h.2.2.2 (by decide)⟩

/-- C3: loadFont returns the loaded face glyph count on success and the
negative sentinel -1 on failure, and on failure every Current-State field
is cleared to its default rather than left stale. -/
theorem loadFont_glyphCount_or_clear (db : FontDatabase) (s : EngineState)
    (fi fa ni : Int) :
    (∀ rec, db.face ⟨fi, fa, ni⟩ = some rec →
      (loadFont db s fi fa ni).1 = (rec.numGlyphs : Int)) ∧
    (db.face ⟨fi, fa, ni⟩ = none →
      (loadFont db s fi fa ni).1 = -1 ∧
      (loadFont db s fi fa ni).1 < 0 ∧
      ((loadFont db s fi fa ni).2).curFontIndex = -1 ∧
      ((loadFont db s fi fa ni).2).fontType = FontType_Other ∧
      ((loadFont db s fi fa ni).2).curFamilyName = "" ∧
      ((loadFont db s fi fa ni).2).curStyleName = "" ∧
      ((loadFont db s fi fa ni).2).curNumGlyphs = -1 ∧
      ((loadFont db s fi fa ni).2).curCharMaps = [] ∧
      ((loadFont db s fi fa ni).2).curPaletteInfos = [] ∧
      ((loadFont db s fi fa ni).2).curSFNTNames = [] ∧
      ((loadFont db s fi fa ni).2).curFaceID = none ∧
      ((loadFont db s fi fa ni).2).ftFallbackFace = none ∧
      ((loadFont db s fi fa ni).2).ftSize = none) := by
  constructor
  · intro rec h
    simp [loadFont, h]
  · intro h
    simp [loadFont, h, clearCurrentState]

theorem loadFont_glyphCount_or_clear_witness :
    (loadFont dbOne initState 0 0 0).1 = 5 ∧
    (loadFont dbOne initState 1 0 0).1 = -1 ∧
    ((loadFont dbOne initState 1 0 0).2).curFamilyName = "" ∧
    ((loadFont dbOne initState 1 0 0).2).curNumGlyphs = -1 := by
  refine ⟨?_, ?_, ?_, ?_⟩
  · exact (loadFont_glyphCount_or_clear dbOne initState 0 0 0).1 sampleFace
      (by decide)
  · exact ((loadFont_glyphCount_or_clear dbOne initState 1 0 0).2
      (by decide)).1
  · exact ((loadFont_glyphCount_or_clear dbOne initState 1 0 0).2
      (by decide)).2.2.2.2.1
  · exact ((loadFont_glyphCount_or_clear dbOne initState 1 0 0).2
      (by decide)).2.2.2.2.2.2.1

/-- C8: removing the currently active font leaves the engine Unloaded;
fontValid and renderReady are both false afterwards. -/
theorem removeFont_active_unloads (s : EngineState) (fi : Int)
    (h : fi = s.curFontIndex) :
    fontValid (removeFont s fi) = false ∧
    renderReady (removeFont s fi) = false := by
  unfold removeFont
  rw [if_pos h]
  exact ⟨rfl, rfl⟩

theorem removeFont_active_unloads_witness :
    fontValid (removeFont initState (-1)) = false ∧
    renderReady (removeFont initState (-1)) = false :=
  removeFont_active_unloads initState (-1) (by decide)

/-- On a failed load both face handles are cleared; on a successful load
the fallback face holds the resolved record. -/
theorem loadFont_snd_faces (db : FontDatabase) (s : EngineState)
    (fi fa ni : Int) :
    (db.face ⟨fi, fa, ni⟩ = none →
      ((loadFont db s fi fa ni).2).ftFallbackFace = none ∧
      ((loadFont db s fi fa ni).2).ftSize = none) ∧
    (∀ rec, db.face ⟨fi, fa, ni⟩ = some rec →
      ((loadFont db s fi fa ni).2).ftFallbackFace = some rec) := by
  constructor
  · intro h
    simp [loadFont, h, clearCurrentState]
  · intro rec h
    simp [loadFont, h]

/-- Every operation preserves the size-implies-face invariant: a usable
size context never exists without a fallback face. -/
theorem step_preserves_size_face (db : FontDatabase) (op : Op)
    (s : EngineState)
    (h : s.ftSize.isSome = true → s.ftFallbackFace.isSome = true) :
    ((step db op s).ftSize).isSome = true →
      ((step db op s).ftFallbackFace).isSome = true := by
  cases op with
  | loadFont fi fa ni =>
    show ((loadFont db s fi fa ni).2).ftSize.isSome = true →
      ((loadFont db s fi fa ni).2).ftFallbackFace.isSome = true
    cases hf : db.face ⟨fi, fa, ni⟩ with
    | none =>
      intro hs
      rw [(loadFont_snd_faces db s fi fa ni).1 hf |>.2] at hs
      simp at hs
    | some rec =>
      intro _
      rw [(loadFont_snd_faces db s fi fa ni).2 rec hf]
      rfl
  | reloadFont =>
    cases hc : s.curFaceID with
    | none =>
      show (reloadFont db s).ftSize.isSome = true →
        (reloadFont db s).ftFallbackFace.isSome = true
      unfold reloadFont
      rw [hc]
      exact h
    | some t =>
      have hre : reloadFont db s
          = (loadFont db s t.fontIndex t.faceIndex t.namedInstanceIndex).2
          := by
        unfold reloadFont
        rw [hc]
      show (reloadFont db s).ftSize.isSome = true →
        (reloadFont db s).ftFallbackFace.isSome = true
      rw [hre]
      cases hf : db.face ⟨t.fontIndex, t.faceIndex, t.namedInstanceIndex⟩
        with
      | none =>
        intro hs
        rw [(loadFont_snd_faces db s t.fontIndex t.faceIndex
          t.namedInstanceIndex).1 hf |>.2] at hs
        simp at hs
      | some rec =>
        intro _
        rw [(loadFont_snd_faces db s t.fontIndex t.faceIndex
          t.namedInstanceIndex).2 rec hf]
        rfl
  | removeFont fi =>
    show (removeFont s fi).ftSize.isSome = true →
      (removeFont s fi).ftFallbackFace.isSome = true
    unfold removeFont
    split
    · intro hs
      simp [clearCurrentState] at hs
    · exact h
  | openFonts n => exact h
  | resetCache => exact h
  | update =>
    show (update s).ftSize.isSome = true →
      (update s).ftFallbackFace.isSome = true
    unfold update
    split
    · rename_i t rec heq1 heq2
      intro _
      show s.ftFallbackFace.isSome = true
      rw [heq2]
      rfl
    · intro hs
      simp at hs
  | loadGlyph gi =>
    have hframe := loadGlyph_snd_frame db s gi
    show ((loadGlyph db s gi).2).ftSize.isSome = true →
      ((loadGlyph db s gi).2).ftFallbackFace.isSome = true
    rw [hframe.2.1, hframe.2.2.1]
    exact h
  | setDPI d => exact h
  | setSizeByPixel px => exact h
  | setSizeByPoint pt => exact h
  | setHinting b => exact h
  | setAutoHinting b => exact h
  | setHorizontalHinting b => exact h
  | setVerticalHinting b => exact h
  | setBlueZoneHinting b => exact h
  | setShowSegments b => exact h
  | setAntiAliasingTarget i => exact h
  | setRenderMode i => exact h
  | setAntiAliasingEnabled b => exact h
  | setEmbeddedBitmapEnabled b => exact h
  | setUseColorLayer b => exact h
  | setPaletteIndex i => exact h
  | setLCDSubPixelPositioning b => exact h
  | setLcdFilter f => exact h
  | setCFFHintingMode m => exact h
  | setTTInterpreterVersion v => exact h
  | setStemDarkening b => exact h
  | applyMMGXDesignCoords coords => exact h

/-- The engine states reachable from the freshly constructed engine by
any sequence of API operations against a fixed font database. -/
inductive Reachable (db : FontDatabase) : EngineState → Prop where
  | init : Reachable db initState
  | next : ∀ {s : EngineState} (op : Op),
      Reachable db s → Reachable db (step db op s)

theorem reachable_size_face (db : FontDatabase) (s : EngineState)
    (hr : Reachable db s) :
    s.ftSize.isSome = true → s.ftFallbackFace.isSome = true := by
  induction hr with
  | init =>
    intro h0
    simp [initState] at h0
  | next op hprev ih => exact step_preserves_size_face db op _ ih

/-- C4: renderReady implies fontValid in every reachable engine state;
no state can render bitmaps without holding a valid font. -/
theorem renderReady_implies_fontValid (db : FontDatabase)
    (s : EngineState) (hr : Reachable db s)
    (h : renderReady s = true) : fontValid s = true :=
  reachable_size_face db s hr h

theorem renderReady_implies_fontValid_witness :
    renderReady (step dbOne (Op.loadFont 0 0 0) initState) = true ∧
    fontValid (step dbOne (Op.loadFont 0 0 0) initState) = true :=
  ⟨by decide,
   renderReady_implies_fontValid dbOne _
     (Reachable.next (Op.loadFont 0 0 0) Reachable.init) (by decide)⟩

/-- On a successful load every Current-State field mirrors the resolved
face record, and the loaded triplet is remembered. -/
theorem loadFont_success_fields (db : FontDatabase) (s : EngineState)
    (fi fa ni : Int) (rec : FaceRecord)
    (h : db.face ⟨fi, fa, ni⟩ = some rec) :
    ((loadFont db s fi fa ni).2).curFamilyName = rec.familyName ∧
    ((loadFont db s fi fa ni).2).curStyleName = rec.styleName ∧
    ((loadFont db s fi fa ni).2).curNumGlyphs = (rec.numGlyphs : Int) ∧
    ((loadFont db s fi fa ni).2).curCharMaps = rec.charMaps ∧
    ((loadFont db s fi fa ni).2).curFaceID = some ⟨fi, fa, ni⟩ := by
  simp [loadFont, h]

/-- C6: after a successful load, reloadFont with unchanged settings
reproduces an observably identical Current-State: family name, style
name, glyph count and charmap list all keep their pre-reload values. -/
theorem reloadFont_reproduces_current_state (db : FontDatabase)
    (s : EngineState) (fi fa ni : Int) (rec : FaceRecord)
    (h : db.face ⟨fi, fa, ni⟩ = some rec) :
    (reloadFont db ((loadFont db s fi fa ni).2)).curFamilyName
        = ((loadFont db s fi fa ni).2).curFamilyName ∧
    (reloadFont db ((loadFont db s fi fa ni).2)).curStyleName
        = ((loadFont db s fi fa ni).2).curStyleName ∧
    (reloadFont db ((loadFont db s fi fa ni).2)).curNumGlyphs
        = ((loadFont db s fi fa ni).2).curNumGlyphs ∧
    (reloadFont db ((loadFont db s fi fa ni).2)).curCharMaps
        = ((loadFont db s fi fa ni).2).curCharMaps := by
  obtain ⟨h1, h2, h3, h4, h5⟩ := loadFont_success_fields db s fi fa ni rec h
  obtain ⟨g1, g2, g3, g4, g5⟩ :=
    loadFont_success_fields db ((loadFont db s fi fa ni).2) fi fa ni rec h
  have hre : reloadFont db ((loadFont db s fi fa ni).2)
      = (loadFont db ((loadFont db s fi fa ni).2) fi fa ni).2 := by
    unfold reloadFont
    rw [h5]
  rw [hre]
  exact ⟨g1.trans h1.symm, g2.trans h2.symm, g3.trans h3.symm,
    g4.trans h4.symm⟩

theorem reloadFont_reproduces_current_state_witness :
    (reloadFont dbOne ((loadFont dbOne initState 0 0 0).2)).curNumGlyphs
        = ((loadFont dbOne initState 0 0 0).2).curNumGlyphs ∧
    (reloadFont dbOne ((loadFont dbOne initState 0 0 0).2)).curCharMaps
        = ((loadFont dbOne initState 0 0 0).2).curCharMaps := by
  have h := reloadFont_reproduces_current_state dbOne initState 0 0 0
    sampleFace (by decide)
  exact ⟨h.2.2.1, h.2.2.2⟩

/-- The glyph image loadGlyph produces when the cache holds no stale
entries: none without a size context, a current face or an in-range
index, and otherwise the deterministic materialization of the glyph
through the Face Requester chain. -/
def freshGlyph (db : FontDatabase) (s : EngineState) (gi : Int) :
    Option GlyphImage :=
  match s.ftSize with
  | none => none
  | some _ =>
    match s.curFaceID with
    | none => none
    | some t =>
      if gi < 0 ∨ s.curNumGlyphs ≤ gi then none
      else some (db.glyphImage t s.imageTypeKey gi.toNat)

/-- Cache consistency (spec section 3: evicted entries are regenerated
transparently via the deterministic Face Requester): every resident
glyph image whose key matches the current image-type key equals the
image the requester chain would freshly materialize. -/
def CacheConsistent (db : FontDatabase) (s : EngineState) : Prop :=
  ∀ p ∈ s.glyphCache, ∀ t, s.curFaceID = some t →
    p.1.1 = s.imageTypeKey →
    p.2 = db.glyphImage t s.imageTypeKey p.1.2

theorem cacheConsistent_of_empty (db : FontDatabase) (s : EngineState)
    (h : s.glyphCache = []) : CacheConsistent db s := by
  intro p hp
  rw [h] at hp
  exact absurd hp (List.not_mem_nil p)

/-- With a consistent cache, loadGlyph returns exactly the fresh
materialization, whether it hits or misses. -/
theorem loadGlyph_fst_eq_fresh (db : FontDatabase) (s : EngineState)
    (gi : Int) (hc : CacheConsistent db s) :
    (loadGlyph db s gi).1 = freshGlyph db s gi := by
  cases hss : s.ftSize with
  | none => simp [loadGlyph, freshGlyph, hss]
  | some u =>
    cases hf : s.curFaceID with
    | none => simp [loadGlyph, freshGlyph, hss, hf]
    | some t =>
      by_cases hr : gi < 0 ∨ s.curNumGlyphs ≤ gi
      · simp [loadGlyph, freshGlyph, hss, hf, hr]
      · cases hl : cacheLookup s.glyphCache (s.imageTypeKey, gi.toNat) with
        | none => simp [loadGlyph, freshGlyph, hss, hf, hr, hl]
        | some img =>
          have himg := hc _ (cacheLookup_some_mem hl) t hf rfl
          simp [loadGlyph, freshGlyph, hss, hf, hr, hl]
          exact himg

/-- freshGlyph only reads the size context, the current triplet, the
glyph count and the image-type key. -/
theorem freshGlyph_congr (db : FontDatabase) (s1 s2 : EngineState)
    (gi : Int) (h1 : s2.ftSize = s1.ftSize)
    (h2 : s2.curFaceID = s1.curFaceID)
    (h3 : s2.curNumGlyphs = s1.curNumGlyphs)
    (h4 : s2.imageTypeKey = s1.imageTypeKey) :
    freshGlyph db s2 gi = freshGlyph db s1 gi := by
  unfold freshGlyph
  rw [h1, h2, h3, h4]

/-- C5: cache transparency of resetCache. If a glyph index loads
successfully and the whole cache is then dropped, reloading the same
index with unchanged settings produces a pixel-identical image. -/
theorem resetCache_transparent (db : FontDatabase) (s : EngineState)
    (gi : Int) (img : GlyphImage) (hc : CacheConsistent db s)
    (h : (loadGlyph db s gi).1 = some img) :
    (loadGlyph db (resetCache ((loadGlyph db s gi).2)) gi).1 = some img
    := by
  have hfresh : freshGlyph db s gi = some img :=
    (loadGlyph_fst_eq_fresh db s gi hc).symm.trans h
  have hframe := loadGlyph_snd_frame db s gi
  have hcc : CacheConsistent db (resetCache ((loadGlyph db s gi).2)) :=
    cacheConsistent_of_empty db _ rfl
  have hcong : freshGlyph db (resetCache ((loadGlyph db s gi).2)) gi
      = freshGlyph db s gi := by
    exact freshGlyph_congr db s _ gi hframe.2.1 hframe.2.2.2.1
      hframe.2.2.2.2.1 hframe.2.2.2.2.2
  rw [loadGlyph_fst_eq_fresh db _ gi hcc, hcong, hfresh]

theorem resetCache_transparent_witness :
    (loadGlyph dbOne
        (resetCache ((loadGlyph dbOne
          ((loadFont dbOne initState 0 0 0).2) 0).2)) 0).1
      = some (dbOne.glyphImage ⟨0, 0, 0⟩
          ((loadFont dbOne initState 0 0 0).2).imageTypeKey 0) :=
  resetCache_transparent dbOne ((loadFont dbOne initState 0 0 0).2) 0
    (dbOne.glyphImage ⟨0, 0, 0⟩
      ((loadFont dbOne initState 0 0 0).2).imageTypeKey 0)
    (cacheConsistent_of_empty dbOne _ (by decide))
    (by decide)

/-- C7: a glyph load with a missing size context returns a null result
and leaves the state untouched (no fault is modelled: loadGlyph is a
total function); with a valid size context, a current face and an
in-range glyph index the result is never null. -/
theorem loadGlyph_null_without_size_context (db : FontDatabase)
    (s : EngineState) (gi : Int) :
    (s.ftSize = none →
      (loadGlyph db s gi).1 = none ∧ (loadGlyph db s gi).2 = s) ∧
    (∀ t, s.ftSize ≠ none → s.curFaceID = some t →
      0 ≤ gi → gi < s.curNumGlyphs → (loadGlyph db s gi).1 ≠ none) := by
  constructor
  · intro h
    simp [loadGlyph, h]
  · intro t hs hf h0 hlt
    obtain ⟨u, hss⟩ := Option.ne_none_iff_exists'.mp hs
    have hcond : ¬ (gi < 0 ∨ s.curNumGlyphs ≤ gi) := by omega
    cases hl : cacheLookup s.glyphCache (s.imageTypeKey, gi.toNat) with
    | none => simp [loadGlyph, hss, hf, hcond, hl]
    | some img => simp [loadGlyph, hss, hf, hcond, hl]

theorem loadGlyph_null_without_size_context_witness :
    ((loadGlyph dbOne initState 0).1 = none ∧
      (loadGlyph dbOne initState 0).2 = initState) ∧
    (loadGlyph dbOne ((loadFont dbOne initState 0 0 0).2) 0).1 ≠ none := by
  constructor
  · exact (loadGlyph_null_without_size_context dbOne initState 0).1
      (by decide)
  · exact (loadGlyph_null_without_size_context dbOne
      ((loadFont dbOne initState 0 0 0).2) 0).2 ⟨0, 0, 0⟩
      (by decide) (by decide) (by decide) (by decide)
